import Mathlib

/-!
Verification of the Splide `Autoplay` component
(`src/js/components/Autoplay/Autoplay.ts`).

The controller logic (flags `hovered` / `focused` / `stopped`, `play`,
`pause`, `autoToggle`, `mount`, `updateInterval`, the event handlers
installed by `listen`) is embedded directly from the TypeScript source.
The interval scheduler `RequestInterval` is imported by the source from
`@splidejs/utils` and its code is not part of this repository, so its
state and operations are modelled from the specification of the Interval
Scheduler (start / pause / rewind / set / isPaused).  Wall-clock time is
not modelled: the `elapsed` field stands for the scheduler's
`elapsedBeforePause`, which the controller-level claims constrain only
through `start(keepExistingElapsed)` and `rewind`.

DOM side effects (class toggling, attribute setting, event emission) are
recorded in an effect trace.
-/

set_option autoImplicit false

namespace Splide

/-- The result of the JavaScript conversion `Number(getAttribute(slide, attr))`
applied to a slide's per-slide interval data attribute: either `NaN`
(a non-numeric attribute string) or a number.  A missing attribute yields
`Number(null) = 0`, i.e. `num 0`. -/
inductive NumVal where
  | nan : NumVal
  | num : Int → NumVal
deriving DecidableEq, Repr

/-- The external collaborators consumed by the component: the slide
sufficiency check `Components.Slides.isEnough()`, the current index
`Splide.index`, and slide lookup `Components.Slides.getAt(i)` combined
with reading the slide's interval data attribute (`none` means no slide
exists at the index; `some nv` gives `Number(getAttribute(...))`). -/
structure Env where
  isEnough : Bool
  index : Nat
  getAt : Nat → Option NumVal

/-- The `autoplay` option: `false`, `true`, or the string `"pause"`.
Both `on_` and `pauseStr` are truthy in JavaScript. -/
inductive AutoplayOpt where
  | off : AutoplayOpt
  | on_ : AutoplayOpt
  | pauseStr : AutoplayOpt
deriving DecidableEq, BEq, Repr

/-- Truthiness of the `autoplay` option (`"pause"` is a truthy string). -/
def AutoplayOpt.truthy : AutoplayOpt → Bool
  | .off => false
  | .on_ => true
  | .pauseStr => true

/-- The options the component reads.  `none` models an absent option
(JavaScript `undefined`). -/
structure Options where
  autoplay : AutoplayOpt
  interval? : Option Int
  pauseOnHover? : Option Bool
  pauseOnFocus? : Option Bool
  resetProgress? : Option Bool

/-- Modelled from the spec: the state of the `RequestInterval` scheduler
(`@splidejs/utils`, not in this repository): mutable duration, the
elapsed progress carried across pauses, and the paused flag.  The
scheduler is constructed paused. -/
structure IntervalState where
  durationMs : Int
  elapsed : Nat
  paused : Bool
deriving DecidableEq, Repr

/-- Modelled from the spec: `start(keepExistingElapsed)` is a no-op when
already running; otherwise it clears the paused flag and, when
`keepExistingElapsed` is false, resets the elapsed progress to 0. -/
def intervalStart (keep : Bool) (iv : IntervalState) : IntervalState :=
  if iv.paused then
    { iv with paused := false, elapsed := if keep then iv.elapsed else 0 }
  else iv

/-- Modelled from the spec: `pause()` is a no-op when not running;
otherwise it freezes the elapsed progress and marks the scheduler
paused. -/
def intervalPause (iv : IntervalState) : IntervalState :=
  if iv.paused then iv else { iv with paused := true }

/-- Modelled from the spec: `rewind()` resets the elapsed progress to 0
regardless of the running state. -/
def intervalRewind (iv : IntervalState) : IntervalState :=
  { iv with elapsed := 0 }

/-- Modelled from the spec: `set(newDurationMs)` updates the duration
without resetting elapsed progress. -/
def intervalSet (d : Int) (iv : IntervalState) : IntervalState :=
  { iv with durationMs := d }

/-- Observable side effects of the controller: binding listeners
(`listen()`), wiring `aria-controls` on the toggle button, a toggle-button
visual update (`toggleClass` / `aria-label`, carrying the `!stopped`
active state), and the emitted autoplay lifecycle events. -/
inductive Effect where
  | listen : Effect
  | ariaControls : Effect
  | updateButton : Bool → Effect
  | emitPlay : Effect
  | emitPause : Effect
deriving DecidableEq, Repr

/-- The controller state: the three suspend flags, the owned scheduler
state, and the accumulated effect trace. -/
structure Ctrl where
  hovered : Bool
  focused : Bool
  stopped : Bool
  interval : IntervalState
  trace : List Effect
deriving DecidableEq, Repr

/-- `const duration = options.interval || 5000`: the configured default
duration, falling back to 5000 when the option is absent or `0` (both
falsy). -/
def effDuration (opts : Options) : Int :=
  match opts.interval? with
  | some v => if v = 0 then 5000 else v
  | none => 5000

/-- The duration computed by `updateInterval`:
`Slide && Number(getAttribute(Slide.slide, INTERVAL_DATA_ATTRIBUTE)) || duration`.
A missing slide, a `NaN` attribute, and a zero value all fall back to the
configured default duration. -/
def slideDuration (env : Env) (opts : Options) (idx : Nat) : Int :=
  match env.getAt idx with
  | none => effDuration opts
  | some .nan => effDuration opts
  | some (.num v) => if v = 0 then effDuration opts else v

/-- `updateButton()`: records a toggle-button visual update carrying the
current `!stopped` active state.  (Whether a toggle element exists is DOM
glue; the controller's call is what is recorded.) -/
def updateButton (s : Ctrl) : Ctrl :=
  { s with trace := s.trace ++ [.updateButton (!s.stopped)] }

/-- `updateInterval(index)`: looks up the slide at `index` and passes the
attribute-derived duration (with fallback) to `interval.set`. -/
def updateInterval (env : Env) (opts : Options) (idx : Nat) (s : Ctrl) : Ctrl :=
  { s with interval := intervalSet (slideDuration env opts idx) s.interval }

/-- `play()`: guarded by `isPaused() && Components.Slides.isEnough()`;
recomputes the duration for the current index, starts the scheduler with
`!resetProgress` (default `resetProgress = true`), clears all three
flags, updates the button, and emits the play event. -/
def play (env : Env) (opts : Options) (s : Ctrl) : Ctrl :=
  if s.interval.paused && env.isEnough then
    let resetProgress := opts.resetProgress?.getD true
    let s1 := updateInterval env opts env.index s
    let s2 := { s1 with interval := intervalStart (!resetProgress) s1.interval }
    let s3 := { s2 with focused := false, hovered := false, stopped := false }
    let s4 := updateButton s3
    { s4 with trace := s4.trace ++ [.emitPlay] }
  else s

/-- `pause(stop)`: sets `stopped := stop`, updates the button
unconditionally, and — only when the scheduler is running — pauses it and
emits the pause event. -/
def pause (stop : Bool) (s : Ctrl) : Ctrl :=
  let s1 := updateButton { s with stopped := stop }
  if s1.interval.paused then s1
  else { s1 with interval := intervalPause s1.interval,
                 trace := s1.trace ++ [.emitPause] }

/-- `autoToggle()`: does nothing when `stopped`; otherwise pauses
transiently when `hovered || focused` and plays otherwise. -/
def autoToggle (env : Env) (opts : Options) (s : Ctrl) : Ctrl :=
  if s.stopped then s
  else if s.hovered || s.focused then pause false s
  else play env opts s

/-- The `mouseenter` / `mouseleave` handler: `hovered = (type === 'mouseenter')`
followed by `autoToggle()`. -/
def onHover (env : Env) (opts : Options) (enter : Bool) (s : Ctrl) : Ctrl :=
  autoToggle env opts { s with hovered := enter }

/-- The `focusin` / `focusout` handler: `focused = (type === 'focusin')`
followed by `autoToggle()`. -/
def onFocus (env : Env) (opts : Options) (focusIn : Bool) (s : Ctrl) : Ctrl :=
  autoToggle env opts { s with focused := focusIn }

/-- The toggle-button click handler: `stopped ? play() : pause(true)`. -/
def onToggleClick (env : Env) (opts : Options) (s : Ctrl) : Ctrl :=
  if s.stopped then play env opts s else pause true s

/-- The `EVENT_MOVE` handlers, in registration order: `interval.rewind`
then `updateInterval` at the new index. -/
def onMove (env : Env) (opts : Options) (idx : Nat) (s : Ctrl) : Ctrl :=
  updateInterval env opts idx { s with interval := intervalRewind s.interval }

/-- The `EVENT_SCROLL` handler: `interval.rewind` only. -/
def onScroll (s : Ctrl) : Ctrl :=
  { s with interval := intervalRewind s.interval }

/-- The `EVENT_REFRESH` handler: `interval.rewind` only. -/
def onRefresh (s : Ctrl) : Ctrl :=
  { s with interval := intervalRewind s.interval }

/-- The state at construction time: `hovered` and `focused` are
`undefined` (falsy), `stopped = (options.autoplay === 'pause')`, and the
scheduler holds the configured default duration, paused. -/
def initialState (opts : Options) : Ctrl :=
  { hovered := false
    focused := false
    stopped := decide (opts.autoplay = .pauseStr)
    interval := { durationMs := effDuration opts, elapsed := 0, paused := true }
    trace := [] }

/-- `mount()`: nothing happens when `options.autoplay` is falsy;
otherwise `listen()`, the `aria-controls` wiring, `stopped || play()`,
and `updateButton()` run in that order. -/
def mount (env : Env) (opts : Options) (s : Ctrl) : Ctrl :=
  if opts.autoplay.truthy then
    let s1 := { s with trace := s.trace ++ [.listen, .ariaControls] }
    let s2 := if s1.stopped then s1 else play env opts s1
    updateButton s2
  else s

/-- The externally triggerable operations of a mounted controller:
the public `play`, the public `pause` (default `stop = true`), a
toggle-button click, the four hover/focus events, and the
move / scroll / refresh events. -/
inductive Op where
  | doPlay : Op
  | doPause : Op
  | click : Op
  | hoverEnter : Op
  | hoverLeave : Op
  | focusIn : Op
  | focusOut : Op
  | move : Nat → Op
  | scroll : Op
  | refresh : Op

/-- One externally triggered transition. -/
def step (env : Env) (opts : Options) (s : Ctrl) : Op → Ctrl
  | .doPlay => play env opts s
  | .doPause => pause true s
  | .click => onToggleClick env opts s
  | .hoverEnter => onHover env opts true s
  | .hoverLeave => onHover env opts false s
  | .focusIn => onFocus env opts true s
  | .focusOut => onFocus env opts false s
  | .move idx => onMove env opts idx s
  | .scroll => onScroll s
  | .refresh => onRefresh s

/-- Run a sequence of external operations. -/
def run (env : Env) (opts : Options) (s : Ctrl) (ops : List Op) : Ctrl :=
  ops.foldl (step env opts) s

/-- Hover / focus events only, for the auto-resume claims. -/
inductive HFEv where
  | hEnter : HFEv
  | hLeave : HFEv
  | fIn : HFEv
  | fOut : HFEv

/-- One hover/focus handler invocation. -/
def hfStep (env : Env) (opts : Options) (s : Ctrl) : HFEv → Ctrl
  | .hEnter => onHover env opts true s
  | .hLeave => onHover env opts false s
  | .fIn => onFocus env opts true s
  | .fOut => onFocus env opts false s

/-- Run a sequence of hover/focus events. -/
def hfRun (env : Env) (opts : Options) (s : Ctrl) (evs : List HFEv) : Ctrl :=
  evs.foldl (hfStep env opts) s

/-- The spec's derived rule: the timer runs iff no suspend reason holds,
i.e. the scheduler's paused flag equals the disjunction of the three
flags. -/
def invRun (s : Ctrl) : Prop :=
  s.interval.paused = (s.stopped || s.hovered || s.focused)

/-- A concrete environment with enough slides and no per-slide override. -/
def envW : Env :=
  { isEnough := true, index := 0, getAt := fun _ => none }

/-- A concrete environment with too few slides. -/
def envFew : Env :=
  { isEnough := false, index := 0, getAt := fun _ => none }

/-- Concrete options: `autoplay: true`, everything else absent. -/
def optsW : Options :=
  { autoplay := .on_, interval? := none, pauseOnHover? := none,
    pauseOnFocus? := none, resetProgress? := none }

theorem play_of_not_paused (env : Env) (opts : Options) {s : Ctrl}
    (h : s.interval.paused = false) : play env opts s = s := by
  simp [play, h]

theorem play_of_not_enough (env : Env) (opts : Options) {s : Ctrl}
    (h : env.isEnough = false) : play env opts s = s := by
  simp [play, h]

theorem play_of_paused_enough (env : Env) (opts : Options) {s : Ctrl}
    (hp : s.interval.paused = true) (he : env.isEnough = true) :
    play env opts s =
      { hovered := false, focused := false, stopped := false,
        interval :=
          { durationMs := slideDuration env opts env.index,
            elapsed := if opts.resetProgress?.getD true then 0
                       else s.interval.elapsed,
            paused := false },
        trace := s.trace ++ [.updateButton true, .emitPlay] } := by
  obtain ⟨hv, fo, st, ⟨d, el, p⟩, tr⟩ := s
  simp only [Ctrl.interval] at hp
  subst hp
  cases hrp : opts.resetProgress?.getD true <;>
    simp [play, he, hrp, updateInterval, intervalSet, intervalStart,
      updateButton]

theorem pause_eq (stop : Bool) (s : Ctrl) :
    pause stop s =
      { hovered := s.hovered, focused := s.focused, stopped := stop,
        interval := { s.interval with paused := true },
        trace := s.trace ++ [.updateButton (!stop)] ++
          (if s.interval.paused then [] else [.emitPause]) } := by
  obtain ⟨hv, fo, st, ⟨d, el, p⟩, tr⟩ := s
  cases p <;> simp [pause, updateButton, intervalPause]

/-- C1: `play()` is a no-op — every state field unchanged and nothing
emitted — when the scheduler is not paused or when `isEnough()` is
false; otherwise it sets the duration override for the current slide
index, starts the scheduler preserving the elapsed progress exactly when
`resetProgress` is false (and resetting it when true or absent), sets
`hovered`, `focused` and `stopped` to false, updates the toggle button
and emits the play event. -/
theorem play_spec (env : Env) (opts : Options) (s : Ctrl) :
    (s.interval.paused = false → play env opts s = s) ∧
    (env.isEnough = false → play env opts s = s) ∧
    (s.interval.paused = true → env.isEnough = true →
      play env opts s =
        { hovered := false, focused := false, stopped := false,
          interval :=
            { durationMs := slideDuration env opts env.index,
              elapsed := if opts.resetProgress?.getD true then 0
                         else s.interval.elapsed,
              paused := false },
          trace := s.trace ++ [.updateButton true, .emitPlay] }) :=
  ⟨fun h => play_of_not_paused env opts h,
   fun h => play_of_not_enough env opts h,
   fun hp he => play_of_paused_enough env opts hp he⟩

/-- Witness for C1 at a concrete paused state with enough slides. -/
theorem play_spec_witness :
    play envW optsW (initialState optsW) =
      { hovered := false, focused := false, stopped := false,
        interval := { durationMs := 5000, elapsed := 0, paused := false },
        trace := [.updateButton true, .emitPlay] } := by
  have h := (play_spec envW optsW (initialState optsW)).2.2 rfl rfl
  simpa [initialState, slideDuration, effDuration, envW, optsW] using h

/-- C2: `pause(stop)` sets `stopped = stop` and updates the toggle
button unconditionally; it leaves the other flags and the scheduler's
duration and elapsed progress unchanged, ends with the scheduler paused,
and emits the pause event exactly when the scheduler was running at the
call (nothing when it was already paused). -/
theorem pause_spec (s : Ctrl) (stop : Bool) :
    (pause stop s).stopped = stop ∧
    (pause stop s).hovered = s.hovered ∧
    (pause stop s).focused = s.focused ∧
    (pause stop s).interval.paused = true ∧
    (pause stop s).interval.durationMs = s.interval.durationMs ∧
    (pause stop s).interval.elapsed = s.interval.elapsed ∧
    (pause stop s).trace =
      s.trace ++ [.updateButton (!stop)] ++
        (if s.interval.paused then [] else [.emitPause]) := by
  obtain ⟨hv, fo, st, ⟨d, el, p⟩, tr⟩ := s
  cases p <;> simp [pause, updateButton, intervalPause]

theorem play_stopped_false (env : Env) (opts : Options) (s : Ctrl)
    (h : s.stopped = false) : (play env opts s).stopped = false := by
  simp only [play]
  split
  · simp [updateButton]
  · exact h

theorem autoToggle_stopped (env : Env) (opts : Options) (s : Ctrl) :
    (autoToggle env opts s).stopped = s.stopped := by
  cases hst : s.stopped with
  | true => simp [autoToggle, hst]
  | false =>
    by_cases hor : (s.hovered || s.focused) = true
    · simp [autoToggle, hst, hor, pause_eq]
    · simp only [Bool.or_eq_true, not_or, Bool.not_eq_true] at hor
      simp [autoToggle, hst, hor.1, hor.2,
        play_stopped_false env opts s hst]

/-- C3: each hover/focus handler first updates its flag; when `stopped`
is true nothing else changes; when `stopped` is false and a suspend
reason remains it pauses the scheduler without leaving `stopped` true;
and when `stopped` is false and both flags are clear it behaves as a
`play()` call — in particular a mouse-leave with the scheduler paused and
enough slides restarts the scheduler. -/
theorem hover_focus_handler_spec (env : Env) (opts : Options) (s : Ctrl)
    (e : Bool) :
    (s.stopped = true →
      onHover env opts e s = { s with hovered := e } ∧
      onFocus env opts e s = { s with focused := e }) ∧
    (s.stopped = false → (e || s.focused) = true →
      (onHover env opts e s).interval.paused = true ∧
      (onHover env opts e s).stopped = false) ∧
    (s.stopped = false → (s.hovered || e) = true →
      (onFocus env opts e s).interval.paused = true ∧
      (onFocus env opts e s).stopped = false) ∧
    (s.stopped = false → e = false → s.focused = false →
      onHover env opts e s = play env opts { s with hovered := false }) ∧
    (s.stopped = false → e = false → s.hovered = false →
      onFocus env opts e s = play env opts { s with focused := false }) ∧
    (s.stopped = false → e = false → s.focused = false →
      s.interval.paused = true → env.isEnough = true →
      (onHover env opts e s).interval.paused = false) := by
  refine ⟨fun hst => ?_, fun hst hor => ?_, fun hst hor => ?_,
    fun hst he hf => ?_, fun hst he hh => ?_, fun hst he hf hp hen => ?_⟩
  · constructor <;> simp [onHover, onFocus, autoToggle, hst]
  · constructor <;> simp [onHover, autoToggle, hst, hor, pause_eq]
  · constructor <;> simp [onFocus, autoToggle, hst, hor, pause_eq]
  · subst he
    simp [onHover, autoToggle, hst, hf]
  · subst he
    simp [onFocus, autoToggle, hst, hh]
  · subst he
    have h1 : onHover env opts false s =
        play env opts { s with hovered := false } := by
      simp [onHover, autoToggle, hst, hf]
    rw [h1, play_of_paused_enough env opts (by simpa using hp) hen]

/-- Witness for C3: hover-enter on a freshly constructed (not stopped)
state pauses the scheduler and leaves `stopped` false. -/
theorem hover_focus_handler_spec_witness :
    (onHover envW optsW true (initialState optsW)).interval.paused = true ∧
    (onHover envW optsW true (initialState optsW)).stopped = false :=
  (hover_focus_handler_spec envW optsW (initialState optsW) true).2.1
    rfl rfl

/-- C4: processing a hover or focus event never changes `stopped` (and
neither do the move/scroll/refresh handlers): its value after the
handler equals its value before, in every state. -/
theorem stopped_preserved_by_handlers (env : Env) (opts : Options)
    (s : Ctrl) (e : Bool) (idx : Nat) :
    (onHover env opts e s).stopped = s.stopped ∧
    (onFocus env opts e s).stopped = s.stopped ∧
    (onMove env opts idx s).stopped = s.stopped ∧
    (onScroll s).stopped = s.stopped ∧
    (onRefresh s).stopped = s.stopped := by
  refine ⟨?_, ?_, by simp [onMove, updateInterval, intervalSet],
    by simp [onScroll], by simp [onRefresh]⟩
  · simpa using autoToggle_stopped env opts { s with hovered := e }
  · simpa using autoToggle_stopped env opts { s with focused := e }

theorem hfStep_preserves_stopped_paused (env : Env) (opts : Options)
    {s : Ctrl} (hst : s.stopped = true) (hp : s.interval.paused = true)
    (ev : HFEv) :
    (hfStep env opts s ev).stopped = true ∧
    (hfStep env opts s ev).interval.paused = true := by
  cases ev <;> simp [hfStep, onHover, onFocus, autoToggle, hst, hp]

theorem hfRun_preserves_stopped_paused (env : Env) (opts : Options)
    {s : Ctrl} (hst : s.stopped = true) (hp : s.interval.paused = true)
    (evs : List HFEv) :
    (hfRun env opts s evs).stopped = true ∧
    (hfRun env opts s evs).interval.paused = true := by
  induction evs generalizing s with
  | nil => exact ⟨hst, hp⟩
  | cons ev evs ih =>
    have h := hfStep_preserves_stopped_paused env opts hst hp ev
    exact ih h.1 h.2

/-- C5: after an explicit `pause(true)`, no sequence of hover-enter,
hover-leave, focus-in and focus-out events restarts the scheduler: it
remains paused (and `stopped` remains true) until `play()` is called. -/
theorem pause_true_blocks_auto_resume (env : Env) (opts : Options)
    (s : Ctrl) (evs : List HFEv) :
    (hfRun env opts (pause true s) evs).interval.paused = true ∧
    (hfRun env opts (pause true s) evs).stopped = true := by
  have h0 : (pause true s).stopped = true := by rw [pause_eq]
  have h1 : (pause true s).interval.paused = true := by rw [pause_eq]
  have h := hfRun_preserves_stopped_paused env opts h0 h1 evs
  exact ⟨h.2, h.1⟩

/-- A concrete environment whose slide 1 carries the override 8000. -/
def envOv : Env :=
  { isEnough := true, index := 1,
    getAt := fun i => if i = 1 then some (.num 8000) else none }

/-- A concrete environment whose every slide carries the override 0. -/
def envZero : Env :=
  { isEnough := true, index := 0, getAt := fun _ => some (.num 0) }

/-- Concrete options with `interval: 0` and `autoplay: true`. -/
def optsZero : Options :=
  { autoplay := .on_, interval? := some 0, pauseOnHover? := none,
    pauseOnFocus? := none, resetProgress? := none }

/-- Concrete options with `autoplay: false`. -/
def optsOff : Options :=
  { autoplay := .off, interval? := none, pauseOnHover? := none,
    pauseOnFocus? := none, resetProgress? := none }

/-- C6: scroll and refresh events rewind the elapsed progress to 0
without changing the duration; a navigation (move) event rewinds
unconditionally and additionally sets the scheduler duration from the
new slide's override attribute converted to a number, falling back to
the configured default when the slide is missing or the attribute is not
numeric, and using the override when it is a nonzero number. -/
theorem nav_scroll_refresh_spec (env : Env) (opts : Options) (idx : Nat)
    (s : Ctrl) :
    (onScroll s).interval.elapsed = 0 ∧
    (onScroll s).interval.durationMs = s.interval.durationMs ∧
    (onRefresh s).interval.elapsed = 0 ∧
    (onRefresh s).interval.durationMs = s.interval.durationMs ∧
    (onMove env opts idx s).interval.elapsed = 0 ∧
    (onMove env opts idx s).interval.durationMs =
      slideDuration env opts idx ∧
    (env.getAt idx = none → slideDuration env opts idx = effDuration opts) ∧
    (env.getAt idx = some .nan →
      slideDuration env opts idx = effDuration opts) ∧
    (∀ v : Int, env.getAt idx = some (.num v) → v ≠ 0 →
      slideDuration env opts idx = v) := by
  refine ⟨by simp [onScroll, intervalRewind],
    by simp [onScroll, intervalRewind],
    by simp [onRefresh, intervalRewind],
    by simp [onRefresh, intervalRewind],
    by simp [onMove, updateInterval, intervalSet, intervalRewind],
    by simp [onMove, updateInterval, intervalSet],
    fun h => by simp [slideDuration, h],
    fun h => by simp [slideDuration, h],
    fun v h hv => by simp [slideDuration, h, hv]⟩

/-- Witness for C6: navigating to a slide with override 8000 sets the
duration to 8000 and rewinds the elapsed progress to 0. -/
theorem nav_scroll_refresh_spec_witness :
    slideDuration envOv optsW 1 = 8000 ∧
    (onMove envOv optsW 1 (initialState optsW)).interval.elapsed = 0 :=
  ⟨(nav_scroll_refresh_spec envOv optsW 1 (initialState optsW)).2.2.2.2.2.2.2.2
      8000 rfl (by decide),
   (nav_scroll_refresh_spec envOv optsW 1 (initialState optsW)).2.2.2.2.1⟩

theorem effDuration_ne_zero (opts : Options) : effDuration opts ≠ 0 := by
  unfold effDuration
  cases h : opts.interval? with
  | none => decide
  | some v =>
    by_cases hv : v = 0
    · simp only [if_pos hv]; decide
    · simp only [if_neg hv]; exact hv

theorem slideDuration_ne_zero (env : Env) (opts : Options) (idx : Nat) :
    slideDuration env opts idx ≠ 0 := by
  unfold slideDuration
  cases h : env.getAt idx with
  | none => exact effDuration_ne_zero opts
  | some nv =>
    cases nv with
    | nan => exact effDuration_ne_zero opts
    | num v =>
      by_cases hv : v = 0
      · simp only [if_pos hv]; exact effDuration_ne_zero opts
      · simp only [if_neg hv]; exact hv

/-- C9: a per-slide override whose numeric value is 0 makes
`updateInterval` fall back to the configured default duration; a
configured `interval` option of 0 makes the default 5000; and the
duration handed to the scheduler is never 0. -/
theorem zero_duration_fallback (env : Env) (opts : Options) (idx : Nat)
    (s : Ctrl) :
    (env.getAt idx = some (.num 0) →
      (updateInterval env opts idx s).interval.durationMs =
        effDuration opts) ∧
    (opts.interval? = some 0 → effDuration opts = 5000) ∧
    (updateInterval env opts idx s).interval.durationMs ≠ 0 := by
  refine ⟨fun h => by simp [updateInterval, intervalSet, slideDuration, h],
    fun h => by simp [effDuration, h], ?_⟩
  simpa [updateInterval, intervalSet] using slideDuration_ne_zero env opts idx

/-- Witness for C9: an explicit zero override together with
`interval: 0` yields the default 5000. -/
theorem zero_duration_fallback_witness :
    (updateInterval envZero optsZero 0 (initialState optsZero)).interval.durationMs =
      effDuration optsZero ∧
    effDuration optsZero = 5000 :=
  ⟨(zero_duration_fallback envZero optsZero 0 (initialState optsZero)).1 rfl,
   (zero_duration_fallback envZero optsZero 0 (initialState optsZero)).2.1 rfl⟩

/-- C7: the initial `stopped` flag is true exactly when the autoplay
option is the string `"pause"`; `mount()` is a complete no-op when the
autoplay option is falsy; when it is truthy it installs the listeners
and the `aria-controls` wiring and updates the toggle button, calling
`play()` exactly when the state is not stopped — in particular a mounted
`autoplay: true` controller with enough slides is immediately running
with the play event emitted, while a stopped state only gets the
listeners and a button update. -/
theorem mount_spec (env : Env) (opts : Options) (s : Ctrl) :
    ((initialState opts).stopped = true ↔ opts.autoplay = .pauseStr) ∧
    (opts.autoplay = .off → mount env opts s = s) ∧
    (opts.autoplay.truthy = true → s.stopped = true →
      mount env opts s =
        { s with trace := s.trace ++
            [.listen, .ariaControls, .updateButton false] }) ∧
    (opts.autoplay = .on_ → env.isEnough = true →
      mount env opts (initialState opts) =
        { hovered := false, focused := false, stopped := false,
          interval :=
            { durationMs := slideDuration env opts env.index,
              elapsed := 0, paused := false },
          trace := [.listen, .ariaControls, .updateButton true,
            .emitPlay, .updateButton true] }) := by
  refine ⟨by simp [initialState], fun hoff => ?_, fun htr hst => ?_,
    fun hon hen => ?_⟩
  · simp [mount, hoff, AutoplayOpt.truthy]
  · simp [mount, htr, hst, updateButton]
  · have h1 : mount env opts (initialState opts) =
        updateButton (play env opts
          { initialState opts with trace := [.listen, .ariaControls] }) := by
      simp [mount, AutoplayOpt.truthy, initialState, hon]
    rw [h1, play_of_paused_enough env opts rfl hen]
    simp [updateButton, initialState]

/-- Witness for C7: mounting `autoplay: true` with enough slides yields
a running controller and the full mount trace. -/
theorem mount_spec_witness :
    mount envW optsW (initialState optsW) =
      { hovered := false, focused := false, stopped := false,
        interval := { durationMs := 5000, elapsed := 0, paused := false },
        trace := [.listen, .ariaControls, .updateButton true,
          .emitPlay, .updateButton true] } := by
  have h := (mount_spec envW optsW (initialState optsW)).2.2.2 rfl rfl
  simpa [slideDuration, effDuration, envW, optsW] using h

/-- C10: `play`, `pause` and `isPaused` are operative even when the
autoplay option is falsy and `mount()` was never called: `mount` changes
nothing, yet `play()` on the freshly constructed (paused) state with
enough slides starts the scheduler and emits the play event, and
`pause(true)` sets `stopped`. -/
theorem api_operative_without_mount (env : Env) (opts : Options)
    (hoff : opts.autoplay = .off) (hen : env.isEnough = true) :
    mount env opts (initialState opts) = initialState opts ∧
    (play env opts (initialState opts)).interval.paused = false ∧
    (play env opts (initialState opts)).trace =
      [.updateButton true, .emitPlay] ∧
    (pause true (initialState opts)).stopped = true := by
  refine ⟨by simp [mount, hoff, AutoplayOpt.truthy], ?_, ?_,
    by rw [pause_eq]⟩ <;>
  · rw [play_of_paused_enough env opts rfl hen]
    try simp [initialState]

/-- Witness for C10 with `autoplay: false` and enough slides. -/
theorem api_operative_without_mount_witness :
    (play envW optsOff (initialState optsOff)).interval.paused = false ∧
    (play envW optsOff (initialState optsOff)).trace =
      [.updateButton true, .emitPlay] :=
  ⟨(api_operative_without_mount envW optsOff rfl rfl).2.1,
   (api_operative_without_mount envW optsOff rfl rfl).2.2.1⟩

theorem play_invRun (env : Env) (opts : Options) {s : Ctrl}
    (hen : env.isEnough = true) (h : invRun s) :
    invRun (play env opts s) := by
  by_cases hp : s.interval.paused = true
  · rw [play_of_paused_enough env opts hp hen]
    simp [invRun]
  · rw [play_of_not_paused env opts (by simpa using hp)]
    exact h

theorem pause_true_invRun (s : Ctrl) : invRun (pause true s) := by
  rw [pause_eq]
  simp [invRun]

theorem autoToggle_invRun (env : Env) (opts : Options) {s : Ctrl}
    (hen : env.isEnough = true)
    (hstp : s.stopped = true → s.interval.paused = true) :
    invRun (autoToggle env opts s) := by
  cases hst : s.stopped with
  | true => simp [autoToggle, hst, invRun, hstp hst]
  | false =>
    by_cases hor : (s.hovered || s.focused) = true
    · rw [show autoToggle env opts s = pause false s by
        simp [autoToggle, hst, hor], pause_eq]
      simp [invRun, hst, hor]
    · simp only [Bool.or_eq_true, not_or, Bool.not_eq_true] at hor
      rw [show autoToggle env opts s = play env opts s by
        simp [autoToggle, hst, hor.1, hor.2]]
      by_cases hp : s.interval.paused = true
      · rw [play_of_paused_enough env opts hp hen]
        simp [invRun]
      · rw [play_of_not_paused env opts (by simpa using hp)]
        simp only [Bool.not_eq_true] at hp
        simp [invRun, hst, hor.1, hor.2, hp]

theorem step_invRun (env : Env) (opts : Options) {s : Ctrl}
    (hen : env.isEnough = true) (h : invRun s) (op : Op) :
    invRun (step env opts s op) := by
  have hstp : s.stopped = true → s.interval.paused = true := fun hst => by
    have h2 := h
    unfold invRun at h2
    rw [hst] at h2
    simpa using h2
  cases op with
  | doPlay => exact play_invRun env opts hen h
  | doPause => exact pause_true_invRun s
  | click =>
    cases hst : s.stopped with
    | true =>
      rw [show step env opts s .click = play env opts s by
        simp [step, onToggleClick, hst]]
      exact play_invRun env opts hen h
    | false =>
      rw [show step env opts s .click = pause true s by
        simp [step, onToggleClick, hst]]
      exact pause_true_invRun s
  | hoverEnter =>
    exact autoToggle_invRun env opts hen (fun hst => hstp hst)
  | hoverLeave =>
    exact autoToggle_invRun env opts hen (fun hst => hstp hst)
  | focusIn =>
    exact autoToggle_invRun env opts hen (fun hst => hstp hst)
  | focusOut =>
    exact autoToggle_invRun env opts hen (fun hst => hstp hst)
  | move idx =>
    simpa [step, onMove, updateInterval, intervalSet, intervalRewind,
      invRun] using h
  | scroll => simpa [step, onScroll, intervalRewind, invRun] using h
  | refresh => simpa [step, onRefresh, intervalRewind, invRun] using h

theorem run_invRun (env : Env) (opts : Options) {s : Ctrl}
    (hen : env.isEnough = true) (h : invRun s) (ops : List Op) :
    invRun (run env opts s ops) := by
  induction ops generalizing s with
  | nil => exact h
  | cons op ops ih => exact ih (step_invRun env opts hen h op)

theorem mount_invRun (env : Env) (opts : Options)
    (hen : env.isEnough = true) (htr : opts.autoplay.truthy = true) :
    invRun (mount env opts (initialState opts)) := by
  cases hao : opts.autoplay with
  | off => rw [hao] at htr; exact absurd htr (by decide)
  | on_ =>
    have h1 : mount env opts (initialState opts) =
        updateButton (play env opts
          { initialState opts with trace := [.listen, .ariaControls] }) := by
      simp [mount, AutoplayOpt.truthy, initialState, hao]
    rw [h1, play_of_paused_enough env opts rfl hen]
    simp [invRun, updateButton]
  | pauseStr =>
    have h1 : mount env opts (initialState opts) =
        updateButton
          { initialState opts with trace := [.listen, .ariaControls] } := by
      simp [mount, AutoplayOpt.truthy, initialState, hao]
    rw [h1]
    simp [invRun, updateButton, initialState, hao]

/-- C8 counterexample: with too few slides (`isEnough()` false) the
freshly mounted `autoplay: true` controller has no suspend reason set
(`stopped`, `hovered`, `focused` all false) yet its scheduler is paused,
because `play()` refused to start — so the derived running rule is not
an invariant of every reachable state of the controller operations. -/
theorem running_rule_counterexample :
    ¬ invRun (run envFew optsW
        (mount envFew optsW (initialState optsW)) []) := by
  unfold invRun
  decide

/-- C8 (amended): provided the autoplay option is truthy and
`isEnough()` returns true, every state reachable from the mounted
initial state through the external operations (play, pause, toggle
click, hover/focus events, move/scroll/refresh) satisfies the derived
rule: the scheduler runs iff `!stopped && !hovered && !focused`. -/
theorem running_rule_invariant (env : Env) (opts : Options)
    (ops : List Op) (hen : env.isEnough = true)
    (htr : opts.autoplay.truthy = true) :
    invRun (run env opts (mount env opts (initialState opts)) ops) :=
  run_invRun env opts hen (mount_invRun env opts hen htr) ops

/-- Witness for C8 (amended) on a hover-enter then toggle-click
sequence. -/
theorem running_rule_invariant_witness :
    invRun (run envW optsW (mount envW optsW (initialState optsW))
      [.hoverEnter, .click]) :=
  running_rule_invariant envW optsW [.hoverEnter, .click] rfl rfl

end Splide
